import Mathlib

/-!
Shallow embedding of `simpletimer.py`, a stopwatch utility built around one
class `TicToc` plus two module-level convenience bindings `tic` and `toc`.

Modelling conventions:
* Wall-clock instants are rationals (`ℚ`); `time.time()` becomes an explicit
  `now : ℚ` argument to every operation that samples the clock.
* Python attribute presence (`hasattr` checks on `start_time`) becomes an
  `Option ℚ` field: `none` models the deleted/absent attribute.
* The barrier is an opaque zero-argument callable.  Only its presence lives in
  the state (`_barrier : Option Unit`); the outcome of actually invoking it at
  a given call site is supplied from outside as `bres : Except PyErr Unit`
  (`.ok ()` models a normal return, `.error e` models the callable raising
  exception `e`).  When `_barrier` is `none` the callable is never invoked and
  `bres` is ignored, exactly as in the source.
* Raising an exception becomes returning `Except.error`; a mutating method
  returns the post-call state alongside the result, because a Python object
  keeps the mutations already performed when an exception escapes.
* Writing to standard output becomes an extra `String` component of the
  result (the empty string when nothing is printed).
-/

/-- Python exception values that can cross the Timer boundary: the
`RuntimeError(msg)` the class itself raises, an exception raised by the
user-supplied barrier callable, and an arbitrary user exception raised by a
block wrapped in a `with` statement (payloads are opaque codes). -/
inductive PyErr where
  | runtimeError (msg : String)
  | barrierExc (code : Nat)
  | userExc (code : Nat)
deriving Repr, DecidableEq

/-! ### A model of Python `str.format` for `elapsed` fields

The source formats its message templates with
`msg.format(elapsed=value)` where the template holds fields such as
`\x7belapsed:f\x7d` or `\x7belapsed:7.3f\x7d`.  The functions below model the
fragment of the format mini-language those fields use: fixed-point (`f`)
presentation with an optional minimum width and an optional precision
(default 6), right-aligned with space padding. -/

/-- Left-pad `s` with copies of `c` up to width `w`. -/
def padLeft (c : Char) (w : Nat) (s : String) : String :=
  String.mk (List.replicate (w - s.length) c) ++ s

/-- Read a decimal numeral from `l`, giving `d` when `l` is empty (used for
the optional width and precision of a format spec). -/
def digitsToNat (l : List Char) (d : Nat) : Nat :=
  if l.isEmpty then d
  else l.foldl (fun a c => a * 10 + (c.toNat - 48)) 0

/-- Round a nonnegative rational `x`, after scaling by `10 ^ prec`, to the
nearest natural number (half away from zero): the digit string of fixed-point
presentation.  With `x = n / d` in lowest terms this is
`⌊(x * 10 ^ prec) + 1 / 2⌋ = (2 * n * 10 ^ prec + d) / (2 * d)`,
computed on the numerator and denominator directly. -/
def scaledRound (prec : Nat) (x : ℚ) : Nat :=
  ((2 * x.num * ((10 ^ prec : Nat) : Int) + (x.den : Int)) / (2 * (x.den : Int))).toNat

/-- Fixed-point rendering of a nonnegative rational with `prec` digits after
the decimal point. -/
def fixedNonneg (prec : Nat) (x : ℚ) : String :=
  let n := scaledRound prec x
  let ip := n / 10 ^ prec
  let fp := n % 10 ^ prec
  if prec = 0 then toString ip
  else toString ip ++ "." ++ padLeft '0' prec (toString fp)

/-- Fixed-point rendering of a rational with `prec` digits after the decimal
point, as the Python `f` presentation type produces. -/
def fixedStr (prec : Nat) (x : ℚ) : String :=
  if x < 0 then "-" ++ fixedNonneg prec (-x) else fixedNonneg prec x

/-- Render the value of one replacement field given its format spec (characters
between the colon and the closing brace), e.g. `7.3f` or `f`: optional
width, optional precision (default 6), `f` presentation. -/
def renderSpec (spec : List Char) (x : ℚ) : String :=
  let body := if spec.getLast? = some 'f' then spec.dropLast else spec
  let width := digitsToNat (body.takeWhile (fun c => c ≠ '.')) 0
  let prec :=
    match body.dropWhile (fun c => c ≠ '.') with
    | [] => 6
    | _ :: r => digitsToNat r 6
  padLeft ' ' width (fixedStr prec x)

/-- Render one complete replacement field (the characters between the
braces), substituting the value `x` when the field name is `elapsed` and
reproducing the field verbatim otherwise. -/
def renderField (field : List Char) (x : ℚ) : List Char :=
  let name := field.takeWhile (fun d => d ≠ ':')
  let spec :=
    match field.dropWhile (fun d => d ≠ ':') with
    | [] => ([] : List Char)
    | _ :: r => r
  if name = ("elapsed").data then (renderSpec spec x).data
  else '\x7b' :: (field ++ [ '\x7d' ])

/-- Substitute every `elapsed` replacement field of a template with the
rendered value `x`, copying all other characters through unchanged.  The
scanner is a one-pass state machine: `mode = none` while outside a field,
`mode = some acc` while collecting the characters of a field. -/
def substFields (x : ℚ) (mode : Option (List Char)) : List Char → List Char
  | [] => []
  | c :: rest =>
    match mode with
    | none =>
      if c = '\x7b' then substFields x (some []) rest
      else c :: substFields x none rest
    | some acc =>
      if c = '\x7d' then renderField acc x ++ substFields x none rest
      else substFields x (some (acc ++ [c])) rest

/-- Model of `template.format(elapsed=x)` for the templates this module
formats. -/
def pyFormat (template : String) (x : ℚ) : String :=
  String.mk (substFields x none template.data)

/-- Model of the Python rstrip-newline call used by `__str__`: drop every trailing newline. -/
def rstripNewlines (s : String) : String :=
  String.mk ((s.data.reverse.dropWhile (fun c => c = '\n')).reverse)

/-! ### The `TicToc` class -/

/-- State of one `TicToc` instance: the `_msg` template and `_barrier`
configured by `__init__`, and the optional `start_time` / `end_time`
attributes (absent attribute = `none`). -/
structure TicToc where
  _msg : String
  _barrier : Option Unit
  start_time : Option ℚ
  end_time : Option ℚ
deriving Repr, DecidableEq

namespace TicToc

/-- Class attribute `default_msg`. -/
def default_msg : String := "Elapsed time is \x7belapsed:f\x7d seconds.\n"

/-- Constructor `TicToc.__init__(msg, barrier)`; the Python defaults are
`msg=default_msg`, `barrier=None`.  A fresh instance has neither
`start_time` nor `end_time` set. -/
def mkNew (msg : String) (barrier : Option Unit) : TicToc :=
  { _msg := msg, _barrier := barrier, start_time := none, end_time := none }

/-- Method `reset`: delete `start_time` and `end_time` when present. -/
def reset (t : TicToc) : TicToc :=
  { t with start_time := none, end_time := none }

/-- Property `is_started`: the `hasattr` check on `start_time`. -/
def is_started (t : TicToc) : Bool :=
  t.start_time.isSome

/-- Property `is_ended`: the `hasattr` check on `end_time`. -/
def is_ended (t : TicToc) : Bool :=
  t.end_time.isSome

/-- Elapsed seconds once started: `end_time - start_time` when `end_time` is
present, otherwise `time.time() - start_time` (shared by `elapsed`, the `toc`
report and `__str__`). -/
def elapsedFrom (s : ℚ) (e? : Option ℚ) (now : ℚ) : ℚ :=
  match e? with
  | some e => e - s
  | none => now - s

/-- Property `elapsed`: raises `RuntimeError("Timer not yet started.")` when
not started, otherwise the elapsed seconds. -/
def elapsed (t : TicToc) (now : ℚ) : Except PyErr ℚ :=
  match t.start_time with
  | none => .error (.runtimeError ("Timer not yet started."))
  | some s => .ok (elapsedFrom s t.end_time now)

/-- Method `tic`: `reset()`, then invoke the barrier when present, then set
`start_time = time.time()`.  When the barrier raises, the exception escapes
after the reset already happened and before `start_time` is set. -/
def tic (t : TicToc) (bres : Except PyErr Unit) (now : ℚ) :
    Except PyErr Unit × TicToc :=
  let t1 := t.reset
  match t._barrier, bres with
  | some _, .error e => (.error e, t1)
  | _, _ => (.ok (), { t1 with start_time := some now })

/-- Method `toc`: raise `RuntimeError("Timer not yet started.")` unless
started; otherwise invoke the barrier when present, set
`end_time = time.time()`, and, when `_msg` is non-empty (truthy), print
`_msg.format(elapsed=self.elapsed)` with the print terminator set to the
empty string (so standard output receives exactly the formatted template).  The third component of the result
is what was written to standard output. -/
def toc (t : TicToc) (bres : Except PyErr Unit) (now : ℚ) :
    Except PyErr Unit × TicToc × String :=
  match t.start_time with
  | none => (.error (.runtimeError ("Timer not yet started.")), t, "")
  | some s =>
    match t._barrier, bres with
    | some _, .error e => (.error e, t, "")
    | _, _ =>
      let t1 := { t with end_time := some now }
      let out := if t1._msg = "" then "" else pyFormat t1._msg (elapsedFrom s t1.end_time now)
      (.ok (), t1, out)

/-- Method `__float__`: returns `self.elapsed` (so it raises exactly when
`elapsed` raises). -/
def toFloat (t : TicToc) (now : ℚ) : Except PyErr ℚ :=
  t.elapsed now

/-- Method `__str__`: when started, `default_msg` formatted with
`self.elapsed` and stripped of trailing newlines; otherwise the fixed string
`Timer not yet started.` — a total function, it never raises. -/
def str (t : TicToc) (now : ℚ) : String :=
  match t.start_time with
  | some s => rstripNewlines (pyFormat default_msg (elapsedFrom s t.end_time now))
  | none => "Timer not yet started."

/-- Method `__enter__`: calls `self.tic()` (and returns `self`). -/
def enter (t : TicToc) (bres : Except PyErr Unit) (now : ℚ) :
    Except PyErr Unit × TicToc :=
  t.tic bres now

/-- Method `__exit__(type, value, traceback)`: calls `self.toc()`, ignoring
the exception information, and returns `None` (so a pending exception
propagates). -/
def exitWith (t : TicToc) (bres : Except PyErr Unit) (now : ℚ)
    (_ty _v _tb : Option Nat) : Except PyErr Unit × TicToc × String :=
  t.toc bres now

end TicToc

/-- Model of the Python `with TicToc(...) : body` statement around an
arbitrary block: run `__enter__` (any exception it raises escapes and the
body never runs); then run `body`; then run `__exit__` on every exit path;
since `__exit__` returns `None`, an exception raised by the body propagates
to the caller after `__exit__` (and its report) completes, while an
exception raised by `__exit__` itself replaces the pending one.  `b1`/`b2`
are the outcomes of the barrier at start/stop, `n1`/`n2` the clock readings,
`body` the outcome of the wrapped block. -/
def withTicToc (t : TicToc) (b1 b2 : Except PyErr Unit) (n1 n2 : ℚ)
    (body : Except PyErr Unit) : Except PyErr Unit × TicToc × String :=
  match t.enter b1 n1 with
  | (.error e, t1) => (.error e, t1, "")
  | (.ok _, t1) =>
    match t1.exitWith b2 n2 none none none with
    | (.error e2, t2, out) => (.error e2, t2, out)
    | (.ok _, t2, out) => (body, t2, out)

/-- Module-level shared instance: `_tictoc = TicToc()` (default message
template, no barrier), created once at module load. -/
def _tictoc : TicToc :=
  TicToc.mkNew TicToc.default_msg none

/-- Module-level `tic = _tictoc.tic`: the bound method is the class method
with the state of the shared instance threaded through explicitly,
starting from `_tictoc`. -/
def tic : TicToc → Except PyErr Unit → ℚ → Except PyErr Unit × TicToc :=
  TicToc.tic

/-- Module-level `toc = _tictoc.toc`, with the state of the shared instance
threaded through explicitly. -/
def toc : TicToc → Except PyErr Unit → ℚ → Except PyErr Unit × TicToc × String :=
  TicToc.toc

/-- Reachability of a Timer state paired with the current clock reading, by
any sequence of the public mutating operations under a non-decreasing wall
clock: a freshly constructed instance is reachable at any clock reading;
the clock may advance; `reset`, `tic` and `toc` (with any barrier outcome)
run at the current clock reading.  The scoped-resource operations are the
same transitions, since `enter` is `tic` and `exitWith` is `toc`; the
remaining public operations (`elapsed`, `is_started`, `is_ended`,
`toFloat`, `str`) do not touch the state. -/
inductive Reachable : TicToc → ℚ → Prop
  | init (m : String) (b : Option Unit) (now : ℚ) :
      Reachable (TicToc.mkNew m b) now
  | tick {t : TicToc} {now : ℚ} (now' : ℚ) (h : Reachable t now)
      (hle : now ≤ now') : Reachable t now'
  | step_reset {t : TicToc} {now : ℚ} (h : Reachable t now) :
      Reachable t.reset now
  | step_tic {t : TicToc} {now : ℚ} (bres : Except PyErr Unit)
      (h : Reachable t now) : Reachable (t.tic bres now).2 now
  | step_toc {t : TicToc} {now : ℚ} (bres : Except PyErr Unit)
      (h : Reachable t now) : Reachable (t.toc bres now).2.1 now

/-- Sample-ordering invariant at clock reading `now`: every recorded sample
is no later than `now`, and `end_time`, when present, was set no earlier
than the present `start_time`. -/
def TimeOrdered (t : TicToc) (now : ℚ) : Prop :=
  (∀ s, t.start_time = some s → s ≤ now) ∧
  (∀ e, t.end_time = some e → (∃ s, t.start_time = some s ∧ s ≤ e) ∧ e ≤ now)

/-! ### Claims -/

/-- Sanity check of the format model against the docstring examples of the
source: the default template rendered at elapsed 2.002 seconds. -/
theorem pyFormat_default_sample :
    pyFormat (TicToc.default_msg) (mkRat 1001 500) =
      "Elapsed time is 2.002000 seconds.\n" := by decide

/-- Sanity check of the format model: the custom docstring template rendered
at elapsed 2.002 seconds. -/
theorem pyFormat_custom_sample :
    pyFormat ("\x7belapsed:7.3f\x7d\n") (mkRat 1001 500) = "  2.002\n" := by
  decide

/-- Sanity check of the display-string pipeline: the default template at
elapsed 2 seconds, trailing newline removed. -/
theorem rstrip_pyFormat_sample :
    rstripNewlines (pyFormat (TicToc.default_msg) (mkRat 2 1)) =
      "Elapsed time is 2.000000 seconds." := by decide

/-- Case analysis on the state a `tic` call leaves behind: either the barrier
raised and both samples are cleared, or `start_time` holds the clock
reading. -/
theorem tic_snd_cases (t : TicToc) (bres : Except PyErr Unit) (now : ℚ) :
    (t.tic bres now).2 = { t with start_time := none, end_time := none } ∨
    (t.tic bres now).2 = { t with start_time := some now, end_time := none } := by
  cases hb : t._barrier <;> cases bres <;>
    simp [TicToc.tic, TicToc.reset, hb]

/-- Case analysis on the state a `toc` call leaves behind: either the state
is unchanged (not started, or the barrier raised), or the Timer was started
and `end_time` now holds the clock reading. -/
theorem toc_snd_cases (t : TicToc) (bres : Except PyErr Unit) (now : ℚ) :
    (t.toc bres now).2.1 = t ∨
    ((∃ s, t.start_time = some s) ∧
      (t.toc bres now).2.1 = { t with end_time := some now }) := by
  cases hs : t.start_time <;> cases hb : t._barrier <;> cases bres <;>
    simp [TicToc.toc, hs, hb]

/-- Every reachable state is time-ordered: recorded samples never lie in the
future, and `end_time` is no earlier than `start_time`. -/
theorem reachable_timeOrdered :
    ∀ {t : TicToc} {now : ℚ}, Reachable t now → TimeOrdered t now := by
  intro t now h
  induction h with
  | init m b now =>
    refine ⟨?_, ?_⟩ <;> intro z hz <;> simp [TicToc.mkNew] at hz
  | tick now' h hle ih =>
    exact ⟨fun s hs => (ih.1 s hs).trans hle,
      fun e he => ⟨(ih.2 e he).1, (ih.2 e he).2.trans hle⟩⟩
  | step_reset h ih =>
    refine ⟨?_, ?_⟩ <;> intro z hz <;> simp [TicToc.reset] at hz
  | step_tic bres h ih =>
    rename_i t' now'
    rcases tic_snd_cases t' bres now' with h1 | h1 <;> rw [h1]
    · exact ⟨fun z hz => by simp at hz, fun z hz => by simp at hz⟩
    · refine ⟨fun z hz => ?_, fun z hz => by simp at hz⟩
      simp at hz
      exact le_of_eq hz.symm
  | step_toc bres h ih =>
    rename_i t' now'
    rcases toc_snd_cases t' bres now' with h1 | ⟨⟨s, hs⟩, h1⟩ <;> rw [h1]
    · exact ih
    · refine ⟨fun z hz => ih.1 z hz, fun e he => ?_⟩
      have he' : now' = e := by simpa using he
      subst he'
      exact ⟨⟨s, hs, ih.1 s hs⟩, le_refl _⟩

/-- C1: for every started Timer, the elapsed-time query is computed from the
stored samples.  In Stopped state (both samples present) elapsed equals
`end_time - start_time`, a fixed value unchanged by repeated queries; in
Running state (`end_time` absent) elapsed equals the current wall-clock time
minus `start_time`, recomputed live, so queries at non-decreasing clock
readings yield non-decreasing values. -/
theorem claim1_elapsed_query (t : TicToc) (s : ℚ) (h : t.start_time = some s) :
    (∀ e, t.end_time = some e → ∀ now now' : ℚ,
      t.elapsed now = .ok (e - s) ∧ t.elapsed now = t.elapsed now') ∧
    (t.end_time = none → ∀ now now' : ℚ,
      t.elapsed now = .ok (now - s) ∧ (now ≤ now' → now - s ≤ now' - s)) := by
  constructor
  · intro e he now now'
    simp [TicToc.elapsed, TicToc.elapsedFrom, h, he]
  · intro he now now'
    refine ⟨by simp [TicToc.elapsed, TicToc.elapsedFrom, h, he], fun hle => ?_⟩
    exact sub_le_sub_right hle s

/-- Witness for C1 at concrete inputs: a Stopped timer (started at 0, stopped
at 2) reports elapsed 2 regardless of the clock, and a Running timer started
at 0 reports the clock reading 5. -/
theorem claim1_elapsed_query_witness :
    (TicToc.mk TicToc.default_msg none (some 0) (some 2)).elapsed 5 = .ok 2 ∧
    (TicToc.mk TicToc.default_msg none (some 0) none).elapsed 5 = .ok 5 := by
  constructor
  · have h := (claim1_elapsed_query
      (TicToc.mk TicToc.default_msg none (some 0) (some 2)) 0 rfl).1 2 rfl 5 7
    simpa using h.1
  · have h := (claim1_elapsed_query
      (TicToc.mk TicToc.default_msg none (some 0) none) 0 rfl).2 rfl 5 7
    simpa using h.1

/-- C2: on a Timer that was never started (or was reset), the elapsed query,
`toc`, and `__float__` all raise `RuntimeError("Timer not yet started.")`,
and the failed `toc` leaves the state unchanged and writes nothing. -/
theorem claim2_idle_error (t : TicToc) (h : t.start_time = none)
    (bres : Except PyErr Unit) (now : ℚ) :
    t.elapsed now = .error (.runtimeError ("Timer not yet started.")) ∧
    t.toc bres now = (.error (.runtimeError ("Timer not yet started.")), t, "") ∧
    t.toFloat now = .error (.runtimeError ("Timer not yet started.")) := by
  simp [TicToc.elapsed, TicToc.toc, TicToc.toFloat, h]

/-- Witness for C2: a freshly constructed default Timer fails the elapsed
query and `toc` with the invalid-state error, its state unchanged. -/
theorem claim2_idle_error_witness :
    (TicToc.mkNew TicToc.default_msg none).elapsed 3 =
      .error (.runtimeError ("Timer not yet started.")) ∧
    (TicToc.mkNew TicToc.default_msg none).toc (.ok ()) 3 =
      (.error (.runtimeError ("Timer not yet started.")),
        TicToc.mkNew TicToc.default_msg none, "") ∧
    (TicToc.mkNew TicToc.default_msg none).toFloat 3 =
      .error (.runtimeError ("Timer not yet started.")) := by
  have h := claim2_idle_error (TicToc.mkNew TicToc.default_msg none) rfl (.ok ()) 3
  exact ⟨h.1, h.2.1, h.2.2⟩

/-- C3: `tic` from any state discards both samples and records `start_time`
as the current clock reading, leaving the Timer Running (with its
configuration untouched); hence after a second `tic`, a `toc` measures only
the interval since the second `tic`. -/
theorem claim3_tic_restart (t : TicToc) (now n1 n2 n3 : ℚ) :
    t.tic (.ok ()) now =
      (.ok (), { _msg := t._msg, _barrier := t._barrier,
                 start_time := some now, end_time := none }) ∧
    (((t.tic (.ok ()) n1).2.tic (.ok ()) n2).2.toc (.ok ()) n3).1 = .ok () ∧
    (((t.tic (.ok ()) n1).2.tic (.ok ()) n2).2.toc (.ok ()) n3).2.1.elapsed n3 =
      .ok (n3 - n2) := by
  cases hb : t._barrier <;>
    simp [TicToc.tic, TicToc.reset, TicToc.toc, TicToc.elapsed, TicToc.elapsedFrom, hb]

/-- C4: `__enter__` performs exactly `tic` and `__exit__` performs exactly
`toc` (ignoring the exception information); wrapping a failing block in a
`with` statement still runs `toc` on exit (recording `end_time` and emitting
the same report a direct `tic` and `toc` pair would), and the exception of
the block then propagates to the caller. -/
theorem claim4_scoped_resource (t : TicToc) (bres : Except PyErr Unit)
    (now n1 n2 : ℚ) (ty v tb : Option Nat) (e : Nat) :
    t.enter bres now = t.tic bres now ∧
    t.exitWith bres now ty v tb = t.toc bres now ∧
    (withTicToc t (.ok ()) (.ok ()) n1 n2 (.error (.userExc e))).1 =
      .error (.userExc e) ∧
    (withTicToc t (.ok ()) (.ok ()) n1 n2 (.error (.userExc e))).2.2 =
      ((t.tic (.ok ()) n1).2.toc (.ok ()) n2).2.2 ∧
    (withTicToc t (.ok ()) (.ok ()) n1 n2 (.error (.userExc e))).2.1.end_time =
      some n2 := by
  refine ⟨rfl, rfl, ?_, ?_, ?_⟩ <;>
    cases hb : t._barrier <;>
      simp [withTicToc, TicToc.enter, TicToc.exitWith, TicToc.tic, TicToc.toc,
        TicToc.reset, hb]

/-- C5: a successful `toc` with a non-empty template writes exactly the
template formatted with the computed elapsed value (no extra newline), a
`toc` with an empty (falsy) template writes nothing, and formatting the
template `\x7belapsed:7.3f\x7d\n` with elapsed value 2.002 yields exactly
`  2.002\n`. -/
theorem claim5_stop_report (t : TicToc) (s : ℚ) (h : t.start_time = some s)
    (now : ℚ) :
    (t._msg = "" → (t.toc (.ok ()) now).2.2 = "") ∧
    (t._msg ≠ "" → (t.toc (.ok ()) now).2.2 = pyFormat t._msg (now - s)) ∧
    pyFormat ("\x7belapsed:7.3f\x7d\n") (2.002 : ℚ) = "  2.002\n" := by
  have e2 : (2.002 : ℚ) = mkRat 1001 500 := by rw [Rat.mkRat_eq_div]; norm_num
  refine ⟨?_, ?_, by rw [e2]; decide⟩ <;> intro hm <;> cases hb : t._barrier <;>
    simp [TicToc.toc, TicToc.elapsedFrom, h, hb, hm]

/-- Witness for C5: a timer with template `\x7belapsed:7.3f\x7d\n` started at
clock 0 and stopped at clock 2.002 writes exactly `  2.002\n`; one with the
empty template writes nothing. -/
theorem claim5_stop_report_witness :
    ((TicToc.mk ("\x7belapsed:7.3f\x7d\n") none (some 0) none).toc
        (.ok ()) (2.002 : ℚ)).2.2 = "  2.002\n" ∧
    ((TicToc.mk ("") none (some 0) none).toc (.ok ()) (2.002 : ℚ)).2.2 = "" := by
  constructor
  · have h := (claim5_stop_report
      (TicToc.mk ("\x7belapsed:7.3f\x7d\n") none (some 0) none) 0 rfl
      (2.002 : ℚ)).2.1 (by decide)
    rw [h]
    have e2 : (2.002 : ℚ) - 0 = mkRat 1001 500 := by
      rw [Rat.mkRat_eq_div]; norm_num
    rw [e2]
    decide
  · exact (claim5_stop_report (TicToc.mk ("") none (some 0) none) 0 rfl
      (2.002 : ℚ)).1 rfl

/-- C6: in every Timer state reachable by any sequence of the public
operations under a non-decreasing wall clock, a present `end_time` implies
`start_time` is present and no later than it; consequently `tic` followed
immediately by `toc` (at a clock reading no earlier than the start) yields
a nonnegative elapsed value. -/
theorem claim6_sample_invariant :
    (∀ (t : TicToc) (now : ℚ), Reachable t now → ∀ e, t.end_time = some e →
      ∃ s, t.start_time = some s ∧ s ≤ e) ∧
    (∀ (t : TicToc) (n1 n2 : ℚ), n1 ≤ n2 →
      (((t.tic (.ok ()) n1).2.toc (.ok ()) n2).2.1.elapsed n2 = .ok (n2 - n1) ∧
        0 ≤ n2 - n1)) := by
  constructor
  · intro t now h e he
    exact ((reachable_timeOrdered h).2 e he).1
  · intro t n1 n2 hle
    refine ⟨?_, sub_nonneg.mpr hle⟩
    cases hb : t._barrier <;>
      simp [TicToc.tic, TicToc.reset, TicToc.toc, TicToc.elapsed,
        TicToc.elapsedFrom, hb]

/-- Witness for C6: the Stopped state started at 0 and stopped at 1 is
reachable at clock 1 (construct, `tic` at 0, advance the clock, `toc` at 1)
and satisfies the sample ordering; starting at 0 and stopping at 1 gives
elapsed `1 - 0 ≥ 0`. -/
theorem claim6_sample_invariant_witness :
    (∃ s, (TicToc.mk TicToc.default_msg none (some 0) (some 1)).start_time =
      some s ∧ s ≤ 1) ∧
    ((((TicToc.mkNew TicToc.default_msg none).tic (.ok ()) 0).2.toc
        (.ok ()) 1).2.1.elapsed 1 = .ok (1 - 0)) ∧
    (0 : ℚ) ≤ 1 - 0 := by
  refine ⟨?_, ?_, ?_⟩
  · have hr0 : Reachable (TicToc.mkNew TicToc.default_msg none) 0 :=
      Reachable.init TicToc.default_msg none 0
    have hr1 : Reachable
        ((TicToc.mkNew TicToc.default_msg none).tic (.ok ()) 0).2 0 :=
      Reachable.step_tic (.ok ()) hr0
    have hr2 : Reachable
        ((TicToc.mkNew TicToc.default_msg none).tic (.ok ()) 0).2 1 :=
      Reachable.tick 1 hr1 (by norm_num)
    have hr3 : Reachable
        (((TicToc.mkNew TicToc.default_msg none).tic (.ok ()) 0).2.toc
          (.ok ()) 1).2.1 1 :=
      Reachable.step_toc (.ok ()) hr2
    have he : (((TicToc.mkNew TicToc.default_msg none).tic (.ok ()) 0).2.toc
        (.ok ()) 1).2.1 = TicToc.mk TicToc.default_msg none (some 0) (some 1) :=
      rfl
    exact claim6_sample_invariant.1 _ 1 (he ▸ hr3) 1 rfl
  · exact (claim6_sample_invariant.2 (TicToc.mkNew TicToc.default_msg none)
      0 1 (by norm_num)).1
  · exact (claim6_sample_invariant.2 (TicToc.mkNew TicToc.default_msg none)
      0 1 (by norm_num)).2

/-- C7: the module creates exactly one shared instance `_tictoc` at load
time, configured with the default message template and no barrier, and the
module-level `tic` and `toc` are direct aliases of the class methods `tic`
and `toc` (acting on the threaded state of that instance); running the free-standing
pair from the shared instance produces the same result and report as
running a freshly constructed default Timer over the same interval. -/
theorem claim7_module_aliases (b1 b2 : Except PyErr Unit) (n1 n2 : ℚ) :
    _tictoc = TicToc.mkNew TicToc.default_msg none ∧
    _tictoc._msg = TicToc.default_msg ∧
    _tictoc._barrier = none ∧
    tic = TicToc.tic ∧
    toc = TicToc.toc ∧
    toc (tic _tictoc b1 n1).2 b2 n2 =
      ((TicToc.mkNew TicToc.default_msg none).tic b1 n1).2.toc b2 n2 :=
  ⟨rfl, rfl, rfl, rfl, rfl, rfl⟩

/-- C8: conversion to a display string is total: a started Timer (Running or
Stopped) renders the default template with the current elapsed value and
trims trailing newlines, and an Idle Timer yields the fixed indicator; the
function takes the state purely and never raises. -/
theorem claim8_str_total (t : TicToc) (now : ℚ) :
    (t.start_time = none → t.str now = "Timer not yet started.") ∧
    (∀ s, t.start_time = some s → ∃ v, t.elapsed now = .ok v ∧
      t.str now = rstripNewlines (pyFormat TicToc.default_msg v)) := by
  constructor
  · intro h
    simp [TicToc.str, h]
  · intro s h
    exact ⟨TicToc.elapsedFrom s t.end_time now,
      by simp [TicToc.elapsed, h], by simp [TicToc.str, h]⟩

/-- Witness for C8: an Idle default Timer displays the fixed indicator; a
Timer started at 0 and stopped at 2 displays the default message with
elapsed 2, trailing newline removed. -/
theorem claim8_str_total_witness :
    (TicToc.mkNew TicToc.default_msg none).str 3 = "Timer not yet started." ∧
    (TicToc.mk TicToc.default_msg none (some 0) (some 2)).str 3 =
      "Elapsed time is 2.000000 seconds." := by
  constructor
  · exact (claim8_str_total (TicToc.mkNew TicToc.default_msg none) 3).1 rfl
  · obtain ⟨v, hv, hs⟩ :=
      (claim8_str_total (TicToc.mk TicToc.default_msg none (some 0) (some 2)) 3).2 0 rfl
    have hv2 : (TicToc.mk TicToc.default_msg none (some 0) (some 2)).elapsed 3 =
        .ok ((2 : ℚ) - 0) := rfl
    rw [hv] at hv2
    have hv3 : v = (2 : ℚ) - 0 := by
      injection hv2
    have hv4 : v = mkRat 2 1 := by
      rw [hv3, Rat.mkRat_eq_div]
      norm_num
    rw [hs, hv4]
    decide

/-- C9: when the barrier raises during `toc` on a started Timer, the
exception propagates unmodified, the state is left entirely unchanged, and
nothing is written to standard output. -/
theorem claim9_toc_barrier_atomic (t : TicToc) (s : ℚ)
    (h : t.start_time = some s) (hb : t._barrier = some ()) (e : PyErr)
    (now : ℚ) :
    t.toc (.error e) now = (.error e, t, "") := by
  simp [TicToc.toc, h, hb]

/-- Witness for C9: a Running Timer with a barrier whose call raises keeps
`start_time`, gains no `end_time`, prints nothing, and reports the
exception raised by the barrier itself. -/
theorem claim9_toc_barrier_atomic_witness :
    (TicToc.mk TicToc.default_msg (some ()) (some 0) none).toc
        (.error (.barrierExc 7)) 3 =
      (.error (.barrierExc 7),
        TicToc.mk TicToc.default_msg (some ()) (some 0) none, "") :=
  claim9_toc_barrier_atomic
    (TicToc.mk TicToc.default_msg (some ()) (some 0) none) 0 rfl rfl
    (.barrierExc 7) 3

/-- C10: when the barrier raises during `tic`, the exception propagates but
both samples were already discarded, so the Timer ends Idle whatever its
prior state, and a subsequent elapsed query or `toc` fails with the
invalid-state error. -/
theorem claim10_tic_barrier_resets (t : TicToc) (hb : t._barrier = some ())
    (e : PyErr) (now now' : ℚ) (bres : Except PyErr Unit) :
    t.tic (.error e) now = (.error e, TicToc.mk t._msg t._barrier none none) ∧
    (t.tic (.error e) now).2.elapsed now' =
      .error (.runtimeError ("Timer not yet started.")) ∧
    (t.tic (.error e) now).2.toc bres now' =
      (.error (.runtimeError ("Timer not yet started.")),
        (t.tic (.error e) now).2, "") := by
  refine ⟨?_, ?_, ?_⟩ <;>
    simp [TicToc.tic, TicToc.reset, TicToc.elapsed, TicToc.toc, hb]

/-- Witness for C10: a Stopped Timer (samples 0 and 1) whose barrier raises
during a restart ends Idle with both samples gone, and the elapsed query
then fails with the invalid-state error. -/
theorem claim10_tic_barrier_resets_witness :
    (TicToc.mk TicToc.default_msg (some ()) (some 0) (some 1)).tic
        (.error (.barrierExc 3)) 5 =
      (.error (.barrierExc 3),
        TicToc.mk TicToc.default_msg (some ()) none none) ∧
    ((TicToc.mk TicToc.default_msg (some ()) (some 0) (some 1)).tic
        (.error (.barrierExc 3)) 5).2.elapsed 6 =
      .error (.runtimeError ("Timer not yet started.")) := by
  have h := claim10_tic_barrier_resets
    (TicToc.mk TicToc.default_msg (some ()) (some 0) (some 1)) rfl
    (.barrierExc 3) 5 6 (.ok ())
  exact ⟨h.1, h.2.1⟩
